import Mathlib

namespace TelegramSend

/-! ## Python slicing primitives

`pyTake s n` embeds the Python slice `s[:n]` and `pyDrop s n` embeds
`s[n:]`, for an arbitrary (possibly negative) integer `n`, following
Python's clamping rules: a negative index counts from the end and
out-of-range indices clamp to the ends of the string. -/

/-- Python slice `s[:n]` for an arbitrary integer `n`. -/
def pyTake (s : List Char) (n : Int) : List Char :=
  if n < 0 then s.take (s.length - n.natAbs) else s.take n.toNat

/-- Python slice `s[n:]` for an arbitrary integer `n`. -/
def pyDrop (s : List Char) (n : Int) : List Char :=
  if n < 0 then s.drop (s.length - n.natAbs) else s.drop n.toNat

/-! ## Message splitter (`telegram_send/utils.py`, `split_message`)

```python

def split_message(message: str, max_length: int) -> list[str]:
    ms = []
    while len(message) > max_length:
        ms.append(message[:max_length])
        message = message[max_length:]
    ms.append(message)
    return ms
```

The `while` loop is embedded with fuel: `none` means the loop has not
finished within the given number of iterations.  Termination for every
input is exactly what claim C3 asserts, so it must not be baked into the
embedding. -/

/-- One-loop-at-a-time embedding of the `while` loop of `split_message`.
`ms` is the accumulator list built so far. -/
def split_message_loop : Nat → List Char → Int → List (List Char) → Option (List (List Char))
  | 0, _, _, _ => none
  | fuel + 1, message, maxLength, ms =>
    if (message.length : Int) > maxLength then
      split_message_loop fuel (pyDrop message maxLength) maxLength
        (ms ++ [pyTake message maxLength])
    else
      some (ms ++ [message])

/-- The function `split_message message maxLength fuel`: the result of
`split_message(message, max_length)` if its loop finishes within `fuel`
iterations, `none` otherwise. -/
def split_message (message : List Char) (maxLength : Int) (fuel : Nat) :
    Option (List (List Char)) :=
  split_message_loop fuel message maxLength []

/-! ## Configuration store (`telegram_send.py`, `get_config_settings`)

```python

def get_config_settings(conf=None) -> Settings:
    conf = expanduser(conf) if conf else get_config_path()
    config = configparser.ConfigParser()
    if not config.read(conf) or not config.has_section("telegram"):
        raise ConfigError(f"Config not found: {conf}")
    missing_options = set(["token", "chat_id"]) - set(config.options("telegram"))
    if len(missing_options) > 0:
        raise ConfigError(f"Missing options in config: {', '.join(missing_options)}")
    token = config.get("telegram", "token")
    chat = config.get("telegram", "chat_id")
    reply = config.get("telegram", "reply_to_message_id", fallback=None)
    chat_id = int(chat) if chat.isdigit() else chat
    reply_to_message_id = int(reply) if reply and reply.isdigit() else reply
    return Settings(...)
```

The file system and `configparser` are external: a `ConfigFile` records
what they deliver — whether `config.read` succeeded (file present and
parseable), whether the `telegram` section exists, and the key/value
options of that section.  The set difference
`set(["token", "chat_id"]) - set(options)` is modelled as a filter of the
two required keys in their insertion order (CPython's iteration order over
such a set is unspecified; the modelled order is one admissible order).
`raise ConfigError(msg)` is modelled as `Except.error msg`. -/

/-- What the file system and `configparser` deliver for a config path. -/
structure ConfigFile where
  read_ok : Bool
  has_telegram : Bool
  options : List (String × String)
deriving DecidableEq

/-- Python `chat_id = int(chat) if chat.isdigit() else chat`: the value is
either an integer or kept as the original string. -/
inductive ChatId where
  | num (n : Nat)
  | str (s : String)
deriving DecidableEq

/-- The `Settings` named tuple of the source. -/
structure Settings where
  token : String
  chat_id : ChatId
  reply_to_message_id : Option ChatId
deriving DecidableEq

/-- Python `s.isdigit()` (for ASCII content): non-empty and all digits. -/
def pyIsDigit (s : String) : Bool :=
  !s.data.isEmpty && s.data.all Char.isDigit

/-- Python `int(s)` on a digit string. -/
def pyStrToNat (s : String) : Nat :=
  s.data.foldl (fun a c => a * 10 + (c.toNat - 48)) 0

/-- Python `int(chat) if chat.isdigit() else chat`. -/
def parse_chat_id (s : String) : ChatId :=
  if pyIsDigit s then ChatId.num (pyStrToNat s) else ChatId.str s

/-- Python `int(reply) if reply and reply.isdigit() else reply` (where `reply`
may be `None` from the `fallback=None` lookup). -/
def parse_reply_id (r : Option String) : Option ChatId :=
  match r with
  | none => none
  | some s =>
    some (if s ≠ "" ∧ pyIsDigit s then ChatId.num (pyStrToNat s) else ChatId.str s)

/-- Python `", ".join(keys)`. -/
def joinComma : List String → String
  | [] => ""
  | [k] => k
  | k :: rest => k ++ ", " ++ joinComma rest

/-- The required options absent from the `telegram` section. -/
def missingOptions (c : ConfigFile) : List String :=
  ["token", "chat_id"].filter (fun k => !(c.options.map Prod.fst).contains k)

/-- Embedding of `get_config_settings`, acting on the delivered
`ConfigFile` for the path `confPath`. -/
def get_config_settings (c : ConfigFile) (confPath : String) :
    Except String Settings :=
  if !c.read_ok || !c.has_telegram then
    Except.error ("Config not found: " ++ confPath)
  else if missingOptions c ≠ [] then
    Except.error ("Missing options in config: " ++ joinComma (missingOptions c))
  else
    let token := ((c.options.lookup "token").getD "")
    let chat := ((c.options.lookup "chat_id").getD "")
    let reply := c.options.lookup "reply_to_message_id"
    Except.ok
      { token := token
        chat_id := parse_chat_id chat
        reply_to_message_id := parse_reply_id reply }

/-! ## Dispatch engine (`telegram_send.py`, `send`)

The remote bot is an oracle `bot : Nat → TgMessage` giving the message
object the API returns for the n-th remote call of the invocation.  The
embedding records, besides the `message_ids` list the source accumulates,
the full trace of remote calls issued, and the final state of the
`captions` list (which the source mutates in place through
`make_captions`, so the caller observes it after `send` returns).

The source appends `(await send_message(...))["message_id"]` for text
messages but appends the *whole* returned message object for every other
category, so the entries of `message_ids` are modelled as a sum of the
two shapes (`SentRef.mid` / `SentRef.obj`).

Location tokens are parsed by the loop

```python
it = iter(locations)
for loc in it:
    if "," in loc:
        lat, lon = loc.split(",")
    else:
        lat = loc
        lon = next(it)
```

embedded as `parseLocations`; `none` models the uncaught exceptions of the
source (`ValueError` when a token holds more than one comma,
`StopIteration` when a lone latitude token has no following token).  The
`float()` conversion is an external collaborator and is kept abstract: the
embedding records the latitude/longitude strings handed to it.  The
source performs each location's remote call before parsing the next
token; the embedding parses the whole list first, which only differs on
runs that die in an exception mid-way (no claim concerns those runs). -/

/-- A message object returned by the remote API; only its id matters. -/
structure TgMessage where
  message_id : Nat
deriving DecidableEq

/-- One entry of the accumulated `message_ids` list: the text path stores
the extracted `message_id`, every other path stores the message object. -/
inductive SentRef where
  | mid (n : Nat)
  | obj (m : TgMessage)
deriving DecidableEq

/-- One remote send call, with the payload the source passes to it. -/
inductive BotCall where
  | text (body : List Char)
  | document (f : Nat) (caption : Option String)
  | photo (f : Nat) (caption : Option String)
  | sticker (f : Nat)
  | animation (f : Nat) (caption : Option String)
  | video (f : Nat) (caption : Option String)
  | audio (f : Nat) (caption : Option String)
  | location (lat lon : List Char)
deriving DecidableEq

/-- The keyword arguments of `send` that carry payload.  File-like
arguments are abstract handles (`Nat`). -/
structure SendInput where
  messages : List (List Char)
  files : List Nat
  images : List Nat
  stickers : List Nat
  animations : List Nat
  videos : List Nat
  audios : List Nat
  captions : List String
  locations : List (List Char)
deriving DecidableEq

/-- The all-`None` defaults of `send`. -/
def emptyInput : SendInput :=
  ⟨[], [], [], [], [], [], [], [], []⟩

/-- Mutable state of one `send` invocation: the trace of remote calls so
far, the accumulated `message_ids`, and the current (mutated) captions
list. -/
structure SendState where
  calls : List BotCall
  message_ids : List SentRef
  captions : List (Option String)
deriving DecidableEq

/-- A non-text remote call: the source appends the returned message
object itself to `message_ids`. -/
def pushMedia (bot : Nat → TgMessage) (st : SendState) (c : BotCall) : SendState :=
  { st with calls := st.calls ++ [c],
            message_ids := st.message_ids ++ [SentRef.obj (bot st.calls.length)] }

/-- A text remote call: the source appends `result["message_id"]`. -/
def pushText (bot : Nat → TgMessage) (st : SendState) (body : List Char) : SendState :=
  { st with calls := st.calls ++ [BotCall.text body],
            message_ids :=
              st.message_ids ++ [SentRef.mid (bot st.calls.length).message_id] }

/-- The constant `MessageLimit.MAX_TEXT_LENGTH` of the bot API library. -/
def MAX_TEXT_LENGTH : Int := 4096

/-- The `if messages:` block: oversized messages are split via
`split_message` (always terminating here because the limit is positive),
empty messages are skipped, others are sent whole. -/
def sendTexts (bot : Nat → TgMessage) (messages : List (List Char))
    (st : SendState) : SendState :=
  if messages.isEmpty then st
  else
    messages.foldl (fun s m =>
      if (m.length : Int) > MAX_TEXT_LENGTH then
        ((split_message m MAX_TEXT_LENGTH (m.length + 1)).getD [m]).foldl
          (fun s2 piece => pushText bot s2 piece) s
      else if m.length = 0 then s
      else pushText bot s m) st

/-- Embedding of `make_captions` of the source:

```python
def make_captions(items, captions):
    captions += [None] * (len(items) - len(captions))
    return zip(items, captions)
```

Returns the (in-place extended) captions list together with the pairs
`zip` yields.  `[None] * n` for negative `n` is the empty list, which is
exactly Lean's truncated `Nat` subtraction. -/

def make_captions (items : List Nat) (captions : List (Option String)) :
    List (Option String) × List (Nat × Option String) :=
  let padded := captions ++ List.replicate (items.length - captions.length) none
  (padded, items.zip padded)

/-- One `if <items>: if captions: ... else: ...` block of `send`, for the
five categories with caption support.  `mk` is the remote method of the
category. -/
def sendCaptioned (bot : Nat → TgMessage) (mk : Nat → Option String → BotCall)
    (items : List Nat) (st : SendState) : SendState :=
  if items.isEmpty then st
  else if st.captions.isEmpty then
    items.foldl (fun s f => pushMedia bot s (mk f none)) st
  else
    let mc := make_captions items st.captions
    mc.2.foldl (fun s p => pushMedia bot s (mk p.1 p.2)) { st with captions := mc.1 }

/-- The `if stickers:` block (stickers take no caption). -/
def sendStickers (bot : Nat → TgMessage) (items : List Nat)
    (st : SendState) : SendState :=
  if items.isEmpty then st
  else items.foldl (fun s f => pushMedia bot s (BotCall.sticker f)) st

/-- Python `sep in s` / `s.split(sep)` for a one-character separator. -/
def splitOnChar (sep : Char) : List Char → List (List Char)
  | [] => [[]]
  | c :: cs =>
    if c = sep then [] :: splitOnChar sep cs
    else
      match splitOnChar sep cs with
      | [] => [[c]]
      | p :: ps => (c :: p) :: ps

/-- Python tuple unpacking `lat, lon = pieces` of a two-element list;
`none` models the `ValueError` raised on any other shape. -/
def pyUnpack2 (ps : List (List Char)) : Option (List Char × List Char) :=
  match ps with
  | [la, lo] => some (la, lo)
  | _ => none

/-- The location-token disambiguation loop of `send` (see the section
comment); yields the `(lat, lon)` string pairs handed to `float()`. -/
def parseLocations : List (List Char) → Option (List (List Char × List Char))
  | [] => some []
  | loc :: rest =>
    if loc.contains ',' then
      (pyUnpack2 (splitOnChar ',' loc)).bind
        (fun p => (parseLocations rest).map (fun ls => p :: ls))
    else
      match rest with
      | [] => none
      | lon :: rest2 => (parseLocations rest2).map (fun ls => (loc, lon) :: ls)

/-- The `if locations:` block. -/
def sendLocations (bot : Nat → TgMessage) (locations : List (List Char))
    (st : SendState) : Option SendState :=
  if locations.isEmpty then some st
  else
    (parseLocations locations).map (fun ls =>
      ls.foldl (fun s p => pushMedia bot s (BotCall.location p.1 p.2)) st)

/-- The dispatch engine `send`: category blocks in source order.  `none`
models an invocation that dies in an exception while parsing location
tokens. -/
def send (bot : Nat → TgMessage) (inp : SendInput) : Option SendState :=
  let st : SendState := ⟨[], [], inp.captions.map some⟩
  let st := sendTexts bot inp.messages st
  let st := sendCaptioned bot BotCall.document inp.files st
  let st := sendCaptioned bot BotCall.photo inp.images st
  let st := sendStickers bot inp.stickers st
  let st := sendCaptioned bot BotCall.animation inp.animations st
  let st := sendCaptioned bot BotCall.video inp.videos st
  let st := sendCaptioned bot BotCall.audio inp.audios st
  sendLocations bot inp.locations st

/-- The captions list right-padded with `none` up to length `n` (no-op
when it is already at least that long). -/
def padCaptions (c : List (Option String)) (n : Nat) : List (Option String) :=
  c ++ List.replicate (n - c.length) none

/-! ## Pairing protocol (`telegram_send.py`, `configure`)

The polling part of `configure` for direct/group pairing:

```python
update, update_id = None, None

async def get_user():
    updates = await bot.get_updates(offset=update_id, read_timeout=10)
    for update in updates:
        if update.message:
            if update.message.text == password:
                return update, None
    if len(updates) > 0:
        return None, updates[-1].update_id + 1
    else:
        return None, None

while update is None:
    try:
        update, update_id = await get_user()
    except Exception as e:
        print(f"Error! {e}")

chat_id = update.message.chat_id
user = update.message.from_user.username or update.message.from_user.first_name
```

`bot.get_updates` is an oracle `server : Option Nat → List TUpdate` from
the polling offset to the batch it returns, and the unbounded `while` is
fuel-indexed (each fuel unit is one poll).  The exception branch merely
retries and is not modelled. -/

/-- The relevant part of a `telegram.User`. -/
structure TUser where
  username : Option String
  first_name : String
deriving DecidableEq

/-- The relevant part of a `telegram.Message`. -/
structure TMessage where
  text : Option String
  chat_id : Int
  from_user : TUser
deriving DecidableEq

/-- The relevant part of a `telegram.Update`; `message` is `None` for
non-message updates. -/
structure TUpdate where
  update_id : Nat
  message : Option TMessage
deriving DecidableEq

/-- Python `if update.message: if update.message.text == password:`. -/
def matchesPassword (password : String) (u : TUpdate) : Bool :=
  match u.message with
  | some m => m.text == some password
  | none => false

/-- Embedding of `get_user` acting on one polled batch: either the first
matching update (cursor cleared), or no update and the advanced cursor. -/
def get_user (password : String) (updates : List TUpdate) :
    Option TUpdate × Option Nat :=
  match updates.find? (matchesPassword password) with
  | some u => (some u, none)
  | none =>
    match updates.getLast? with
    | some u => (none, some (u.update_id + 1))
    | none => (none, none)

/-- The `while update is None` polling loop, one fuel unit per poll. -/
def configure_poll (server : Option Nat → List TUpdate) (password : String) :
    Nat → Option Nat → Option TUpdate
  | 0, _ => none
  | fuel + 1, off =>
    match get_user password (server off) with
    | (some u, _) => some u
    | (none, newOff) => configure_poll server password fuel newOff

/-- Python `username or first_name` (an empty or absent username falls
back to the first name). -/
def sender_name (u : TUser) : String :=
  match u.username with
  | some s => if s = "" then u.first_name else s
  | none => u.first_name

/-- Python `chat_id = update.message.chat_id` and the sender name, read off the
update that ended the polling loop. -/
def pairing_chat_and_user (u : TUpdate) : Option (Int × String) :=
  u.message.map (fun m => (m.chat_id, sender_name m.from_user))

/-- An unrelated update (text `"hello"`), for the two-poll scenario. -/
def demo_update1 : TUpdate :=
  ⟨41, some ⟨some "hello", 7, ⟨none, "bob"⟩⟩⟩

/-- The matching update for password `"04821"`. -/
def demo_update2 : TUpdate :=
  ⟨57, some ⟨some "04821", 99, ⟨some "alice", "Alice"⟩⟩⟩

/-- A server whose first poll (no cursor) returns only the unrelated
update and whose second poll (cursor one past it) returns the match. -/
def demo_server (off : Option Nat) : List TUpdate :=
  if off = none then [demo_update1]
  else if off = some 42 then [demo_update2] else []

/-- C9's modelled remote `delete_message` outcome and the warning text of
the source's handler. -/
def delete_warning (m : Nat) (e : String) : String :=
  "Deleting message with id=" ++ toString m ++ " failed: " ++ e

/-- What one `delete` invocation did: every id it attempted (in order)
and the warnings it printed. -/
structure DeleteTrace where
  attempted : List Nat
  warnings : List String
deriving DecidableEq

/-- Embedding of `delete` (`telegram_send.py`):

```python
if message_ids:
    for m in message_ids:
        try:
            await bot.delete_message(chat_id=chat_id, message_id=m, ...)
        except telegram.error.TelegramError as e:
            warn(markup(f"Deleting message with id={m} failed: {e}", "red"))
```

`api m` is the remote outcome for id `m` (`Except.error` is a raised
`TelegramError` with its message).  The `try/except` catches the failure,
records the warning, and the loop continues, so the embedding is a total
fold over the ids. -/
def delete (api : Nat → Except String Unit) (message_ids : List Nat) :
    DeleteTrace :=
  if message_ids.isEmpty then ⟨[], []⟩
  else
    message_ids.foldl (fun tr m =>
      match api m with
      | Except.ok _ => ⟨tr.attempted ++ [m], tr.warnings⟩
      | Except.error e => ⟨tr.attempted ++ [m], tr.warnings ++ [delete_warning m e]⟩)
      ⟨[], []⟩

/-- The failing remote of the C9 scenario: deleting id 2 raises. -/
def demo_delete_api (m : Nat) : Except String Unit :=
  if m = 2 then Except.error "boom" else Except.ok ()

/-! ## Theorems -/

/-- Main invariant of the `split_message` loop for a positive maximum
length: with more fuel than characters the loop finishes, the chunks it
appends concatenate back to the input, and every chunk except the final
one has length exactly `n`. -/
theorem lemma_split_loop_pos (n : Int) (hn : 0 < n) :
    ∀ (fuel : Nat) (m : List Char) (acc : List (List Char)), m.length < fuel →
      ∃ r, split_message_loop fuel m n acc = some (acc ++ r) ∧
        r.flatten = m ∧ (∀ c ∈ r.dropLast, (c.length : Int) = n) ∧ r ≠ [] := by
  intro fuel
  induction fuel with
  | zero => intro m acc h; omega
  | succ fuel ih =>
    intro m acc h
    by_cases hgt : (m.length : Int) > n
    · have hn0 : ¬ n < 0 := by omega
      have hk1 : 1 ≤ n.toNat := by omega
      have hkm : n.toNat < m.length := by omega
      have hdrop : (m.drop n.toNat).length < fuel := by
        rw [List.length_drop]; omega
      obtain ⟨r, hr, hjoin, hlen, hne⟩ :=
        ih (m.drop n.toNat) (acc ++ [m.take n.toNat]) hdrop
      refine ⟨m.take n.toNat :: r, ?_, ?_, ?_, by simp⟩
      · rw [split_message_loop]
        simp only [hgt, if_pos, pyDrop, pyTake, if_neg hn0]
        rw [hr, List.append_assoc]
        simp
      · simp [hjoin]
      · intro c hc
        rw [List.dropLast_cons_of_ne_nil hne] at hc
        rcases List.mem_cons.mp hc with hc | hc
        · subst hc
          rw [List.length_take]
          omega
        · exact hlen c hc
    · refine ⟨[m], ?_, by simp, by simp, by simp⟩
      rw [split_message_loop]
      simp [hgt]

/-- With `max_length = 0` and the non-empty message `"a"`, the loop of
`split_message` never makes progress: the slice `message[0:]` is the whole
message again, so no amount of fuel finishes the loop. -/
theorem lemma_split_loop_zero_diverges :
    ∀ (fuel : Nat) (acc : List (List Char)),
      split_message_loop fuel ['a'] 0 acc = none := by
  intro fuel
  induction fuel with
  | zero => intro acc; rfl
  | succ fuel ih =>
    intro acc
    rw [split_message_loop]
    have h1 : ((['a'] : List Char).length : Int) > 0 := by simp
    simp only [h1, if_pos]
    have hd : pyDrop ['a'] 0 = ['a'] := by simp [pyDrop]
    rw [hd]
    exact ih _

/-- C3 (counterexample): `split_message` is not total over all integer
maximum lengths.  At `message = "a"`, `max_length = 0` the loop body
leaves the message unchanged, so the function never returns: no fuel
bound makes the embedded loop finish. -/
theorem C3_counterexample :
    ¬ ∃ fuel : Nat, (split_message ['a'] 0 fuel).isSome := by
  rintro ⟨fuel, h⟩
  rw [split_message, lemma_split_loop_zero_diverges] at h
  exact Bool.noConfusion h

/-- C3 (amended): `split(message, max_length)` terminates and returns a
chunk sequence for every string `message` and every *positive* integer
`max_length`; the loop finishes within `length + 1` iterations. -/
theorem C3_split_total_for_positive (m : List Char) (n : Int) (hn : 0 < n) :
    (split_message m n (m.length + 1)).isSome := by
  obtain ⟨r, hr, -, -, -⟩ := lemma_split_loop_pos n hn (m.length + 1) m [] (by omega)
  rw [split_message, hr]
  rfl

/-- Witness for C3 at a concrete input: `split("ab", 1)` terminates. -/
theorem C3_witness :
    (0 : Int) < 1 ∧ (split_message ['a', 'b'] 1 3).isSome :=
  ⟨by norm_num, C3_split_total_for_positive ['a', 'b'] 1 (by norm_num)⟩

/-- C4: for every string `s` and positive integer `n`, `split(s, n)`
returns chunks that concatenate back to `s`, every chunk except possibly
the last has length exactly `n`, and the empty string yields the single
chunk `[""]`. -/
theorem C4_split_reconstructs (s : List Char) (n : Int) (hn : 0 < n) :
    ∃ r, split_message s n (s.length + 1) = some r ∧
      r.flatten = s ∧ (∀ c ∈ r.dropLast, (c.length : Int) = n) ∧
      (s = [] → r = [[]]) := by
  obtain ⟨r, hr, hflat, hlen, -⟩ :=
    lemma_split_loop_pos n hn (s.length + 1) s [] (by omega)
  rw [List.nil_append] at hr
  refine ⟨r, by rw [split_message, hr], hflat, hlen, ?_⟩
  intro hs
  subst hs
  rw [split_message_loop] at hr
  have hc : ¬ (([] : List Char).length : Int) > n := by simp; omega
  rw [if_neg hc] at hr
  simpa using hr.symm

/-- Witness for C4 at a concrete input: `split("abc", 2)`. -/
theorem C4_witness :
    (0 : Int) < 2 ∧
      ∃ r, split_message ['a', 'b', 'c'] 2 4 = some r ∧
        r.flatten = ['a', 'b', 'c'] ∧
        (∀ c ∈ r.dropLast, (c.length : Int) = 2) ∧
        (['a', 'b', 'c'] = ([] : List Char) → r = [[]]) :=
  ⟨by norm_num, C4_split_reconstructs ['a', 'b', 'c'] 2 (by norm_num)⟩

/-- C6: loading a configuration fails with `ConfigError` whenever the file
is absent (read failed), the `telegram` section is missing, or the `token`
or `chat_id` key is missing; when required keys are missing the error
message names exactly the missing key(s). -/
theorem C6_config_load_errors (c : ConfigFile) (path : String) :
    (c.read_ok = false →
      get_config_settings c path = Except.error ("Config not found: " ++ path)) ∧
    (c.has_telegram = false →
      get_config_settings c path = Except.error ("Config not found: " ++ path)) ∧
    (("token" ∉ c.options.map Prod.fst ∨ "chat_id" ∉ c.options.map Prod.fst) →
      ∃ e, get_config_settings c path = Except.error e) ∧
    (c.read_ok = true → c.has_telegram = true → missingOptions c ≠ [] →
      get_config_settings c path =
        Except.error ("Missing options in config: " ++ joinComma (missingOptions c))) ∧
    (∀ k, k ∈ missingOptions c ↔
      ((k = "token" ∨ k = "chat_id") ∧ k ∉ c.options.map Prod.fst)) := by
  have hmiss : ∀ k, k ∈ missingOptions c ↔
      ((k = "token" ∨ k = "chat_id") ∧ k ∉ c.options.map Prod.fst) := by
    intro k
    simp [missingOptions, List.mem_filter]
  refine ⟨?_, ?_, ?_, ?_, hmiss⟩
  · intro h
    rw [get_config_settings, if_pos]
    simp [h]
  · intro h
    rw [get_config_settings, if_pos]
    simp [h]
  · intro h
    by_cases hro : c.read_ok = true
    · by_cases hht : c.has_telegram = true
      · refine ⟨"Missing options in config: " ++ joinComma (missingOptions c), ?_⟩
        have hne : missingOptions c ≠ [] := by
          rcases h with h | h
          · intro hnil
            have hm := (hmiss "token").mpr ⟨Or.inl rfl, h⟩
            rw [hnil] at hm
            exact List.not_mem_nil _ hm
          · intro hnil
            have hm := (hmiss "chat_id").mpr ⟨Or.inr rfl, h⟩
            rw [hnil] at hm
            exact List.not_mem_nil _ hm
        rw [get_config_settings, if_neg (by simp [hro, hht]), if_pos hne]
      · exact ⟨_, by rw [get_config_settings, if_pos (by simp [hht])]⟩
    · exact ⟨_, by rw [get_config_settings, if_pos (by simp [hro])]⟩
  · intro hro hht hne
    rw [get_config_settings, if_neg (by simp [hro, hht]), if_pos hne]

/-- C6 witness: a present, well-formed file whose `telegram` section lacks
`chat_id` is rejected with an error naming exactly `chat_id`. -/
theorem C6_witness :
    get_config_settings ⟨true, true, [("token", "t")]⟩ "myconf" =
      Except.error ("Missing options in config: " ++ joinComma ["chat_id"]) := by
  have h := (C6_config_load_errors ⟨true, true, [("token", "t")]⟩ "myconf").2.2.2.1
    rfl rfl (by decide)
  exact h

/-- C7: a `chat_id` value consisting purely of digits is parsed as an
integer, any other value (including `@`-prefixed handles and
`-100`-prefixed channel ids) is kept unchanged as a string, and
`reply_to_message_id`, when present, is parsed by the same rule; the
loader's resulting `Settings` record uses exactly these parses. -/
theorem C7_chat_id_parsing :
    (∀ s : String, s.data ≠ [] → (∀ ch ∈ s.data, ch.isDigit = true) →
      parse_chat_id s = ChatId.num (pyStrToNat s)) ∧
    (∀ s : String, ¬ (s.data ≠ [] ∧ ∀ ch ∈ s.data, ch.isDigit = true) →
      parse_chat_id s = ChatId.str s) ∧
    (∀ r : String, parse_reply_id (some r) = some (parse_chat_id r)) ∧
    parse_reply_id none = none ∧
    parse_chat_id "12345" = ChatId.num 12345 ∧
    parse_chat_id "@mychannel" = ChatId.str "@mychannel" ∧
    parse_chat_id "-1001234567" = ChatId.str "-1001234567" ∧
    (∀ c path st, get_config_settings c path = Except.ok st →
      st.chat_id = parse_chat_id ((c.options.lookup "chat_id").getD "") ∧
      st.reply_to_message_id =
        parse_reply_id (c.options.lookup "reply_to_message_id")) := by
  have hdig : ∀ s : String, pyIsDigit s = true ↔
      (s.data ≠ [] ∧ ∀ ch ∈ s.data, ch.isDigit = true) := by
    intro s
    simp [pyIsDigit, List.isEmpty_iff, List.all_eq_true]
  refine ⟨?_, ?_, ?_, rfl, by decide, by decide, by decide, ?_⟩
  · intro s h1 h2
    rw [parse_chat_id, if_pos ((hdig s).mpr ⟨h1, h2⟩)]
  · intro s h
    rw [parse_chat_id, if_neg]
    intro hd
    exact h ((hdig s).mp hd)
  · intro r
    by_cases hr : r = ""
    · subst hr
      rw [parse_reply_id, parse_chat_id, if_neg (by simp), if_neg (by decide)]
    · rw [parse_reply_id, parse_chat_id]
      by_cases hd : pyIsDigit r = true
      · rw [if_pos ⟨hr, hd⟩, if_pos hd]
      · rw [if_neg (by tauto), if_neg hd]
  · intro c path st h
    rw [get_config_settings] at h
    by_cases h1 : (!c.read_ok || !c.has_telegram) = true
    · rw [if_pos h1] at h
      exact absurd h (by simp)
    · rw [if_neg h1] at h
      by_cases h2 : missingOptions c ≠ []
      · rw [if_pos h2] at h
        exact absurd h (by simp)
      · rw [if_neg h2] at h
        cases h
        exact ⟨rfl, rfl⟩

/-- C7 witness: concrete parses through the theorem — a numeric string
becomes an integer, a handle stays a string, reply ids follow the same
rule, and a loaded config carries exactly these parses. -/
theorem C7_witness :
    parse_chat_id "42" = ChatId.num (pyStrToNat "42") ∧
    parse_chat_id "@c" = ChatId.str "@c" ∧
    parse_reply_id (some "@c") = some (parse_chat_id "@c") ∧
    ((Settings.mk "t" (ChatId.num 99) none).chat_id =
      parse_chat_id (((ConfigFile.mk true true
        [("token", "t"), ("chat_id", "99")]).options.lookup "chat_id").getD "") ∧
     (Settings.mk "t" (ChatId.num 99) none).reply_to_message_id =
      parse_reply_id ((ConfigFile.mk true true
        [("token", "t"), ("chat_id", "99")]).options.lookup "reply_to_message_id")) :=
  ⟨C7_chat_id_parsing.1 "42" (by decide) (by decide),
   C7_chat_id_parsing.2.1 "@c" (by decide),
   C7_chat_id_parsing.2.2.1 "@c",
   C7_chat_id_parsing.2.2.2.2.2.2.2
     (ConfigFile.mk true true [("token", "t"), ("chat_id", "99")]) "p"
     (Settings.mk "t" (ChatId.num 99) none) rfl⟩

/-- The padded captions list reads as `captions.getD` with default
`none`: original entry below the original length, `none` above it. -/
theorem lemma_padded_getElem (captions : List (Option String)) (n k : Nat)
    (hk : k < (captions ++ List.replicate (n - captions.length) none).length) :
    (captions ++ List.replicate (n - captions.length) none)[k] =
      captions.getD k none := by
  by_cases hc : k < captions.length
  · rw [List.getElem_append_left hc, List.getD_eq_getElem _ _ hc]
  · rw [List.getElem_append_right (by omega), List.getElem_replicate,
      List.getD_eq_default _ _ (by omega)]

/-- C1: for the categories with caption support, `make_captions`
right-pads the captions list with `None` up to the item count (never
truncating it), and pairs the two sequences element-wise, so items
without a matching caption are sent uncaptioned; dispatching 3 images
with 1 caption issues the calls (image1, caption1), (image2, None),
(image3, None). -/
theorem C1_caption_alignment (items : List Nat) (captions : List (Option String)) :
    (make_captions items captions).1 =
      captions ++ List.replicate (items.length - captions.length) none ∧
    (make_captions items captions).1.length = max captions.length items.length ∧
    (make_captions items captions).2.length = items.length ∧
    (∀ k, (hk : k < items.length) →
      (make_captions items captions).2[k]? =
        some (items[k], captions.getD k none)) ∧
    (∀ bot : Nat → TgMessage,
      (send bot { emptyInput with images := [10, 20, 30], captions := ["one"] }).map
          SendState.calls =
        some [BotCall.photo 10 (some "one"), BotCall.photo 20 none,
              BotCall.photo 30 none]) := by
  have hplen : (make_captions items captions).1.length =
      max captions.length items.length := by
    simp [make_captions]
    omega
  have hzlen : (make_captions items captions).2.length = items.length := by
    simp [make_captions]
    omega
  refine ⟨rfl, hplen, hzlen, ?_, fun bot => rfl⟩
  intro k hk
  have hkz : k < (make_captions items captions).2.length := by omega
  rw [List.getElem?_eq_getElem hkz]
  have hb : k < (make_captions items captions).1.length := by omega
  have hz : (make_captions items captions).2[k] =
      (items[k], (make_captions items captions).1[k]) := by
    simp [make_captions]
  rw [hz]
  exact congrArg (fun z => some (items[k], z))
    (lemma_padded_getElem captions items.length k (by simp; omega))

/-- C1 witness: 3 items, 1 caption — the second pair is uncaptioned, and
the concrete image dispatch issues exactly the claimed calls. -/
theorem C1_witness :
    (1 < 3 ∧ (make_captions [3, 4, 5] [some "x"]).2[1]? = some (4, none)) ∧
    (send (fun _ => TgMessage.mk 0)
        { emptyInput with images := [10, 20, 30], captions := ["one"] }).map
        SendState.calls =
      some [BotCall.photo 10 (some "one"), BotCall.photo 20 none,
            BotCall.photo 30 none] :=
  ⟨⟨by norm_num, (C1_caption_alignment [3, 4, 5] [some "x"]).2.2.2.1 1 (by norm_num)⟩,
   (C1_caption_alignment [] []).2.2.2.2 (fun _ => TgMessage.mk 0)⟩

/-- C2 (code bug): the source's own comment says `message_ids` collects
message ids, and the `--showids` output feeds `--delete` which takes
integer ids — but only the text path appends
`(await send_message(...))["message_id"]`; every media and location path
appends the whole returned message object.  Evaluated at the failing
input (one image, remote returning message id 7): the image entry is the
object, the analogous text entry is the id, and the two shapes differ. -/
theorem C2_media_entries_not_ids :
    (send (fun k => TgMessage.mk (7 + k)) { emptyInput with images := [5] }).map
        SendState.message_ids = some [SentRef.obj (TgMessage.mk 7)] ∧
    (send (fun k => TgMessage.mk (7 + k)) { emptyInput with messages := [['h', 'i']] }).map
        SendState.message_ids = some [SentRef.mid 7] ∧
    decide (SentRef.obj (TgMessage.mk 7) = SentRef.mid 7) = false :=
  ⟨rfl, rfl, rfl⟩

/-- C8: a location token containing a comma is parsed alone as a
`lat,lon` pair; a token without a comma is combined with the next token;
`["40.7,-74.0"]` and `["40.7", "-74.0"]` both yield the single pair
`(40.7, -74.0)` (as the strings handed to `float()`), and dispatching the
single-token form issues exactly one location call. -/
theorem C8_location_parsing :
    (∀ (loc la lo : List Char) (rest : List (List Char)),
      loc.contains ',' = true → splitOnChar ',' loc = [la, lo] →
      parseLocations (loc :: rest) =
        (parseLocations rest).map (fun ls => (la, lo) :: ls)) ∧
    (∀ (l1 l2 : List Char) (rest : List (List Char)),
      l1.contains ',' = false →
      parseLocations (l1 :: l2 :: rest) =
        (parseLocations rest).map (fun ls => (l1, l2) :: ls)) ∧
    parseLocations [['4', '0', '.', '7', ',', '-', '7', '4', '.', '0']] =
      some [(['4', '0', '.', '7'], ['-', '7', '4', '.', '0'])] ∧
    parseLocations [['4', '0', '.', '7'], ['-', '7', '4', '.', '0']] =
      some [(['4', '0', '.', '7'], ['-', '7', '4', '.', '0'])] ∧
    (∀ bot : Nat → TgMessage,
      (send bot { emptyInput with
          locations := [['4', '0', '.', '7', ',', '-', '7', '4', '.', '0']] }).map
          SendState.calls =
        some [BotCall.location ['4', '0', '.', '7'] ['-', '7', '4', '.', '0']]) := by
  refine ⟨?_, ?_, by decide, by decide, fun bot => rfl⟩
  · intro loc la lo rest h hsplit
    rw [parseLocations.eq_def]
    dsimp only
    rw [if_pos h, hsplit]
    rfl
  · intro l1 l2 rest h
    rw [parseLocations.eq_def]
    dsimp only
    rw [if_neg (by rw [h]; exact Bool.false_ne_true)]

/-- C8 witness: the two parsing rules applied at concrete tokens. -/
theorem C8_witness :
    parseLocations [['1', ',', '2']] =
      (parseLocations []).map (fun ls => (['1'], ['2']) :: ls) ∧
    parseLocations [['1'], ['2']] =
      (parseLocations []).map (fun ls => (['1'], ['2']) :: ls) :=
  ⟨C8_location_parsing.1 ['1', ',', '2'] ['1'] ['2'] [] (by decide) (by decide),
   C8_location_parsing.2.1 ['1'] ['2'] [] (by decide)⟩

/-- Two successive paddings collapse to one padding to the larger
target. -/
theorem lemma_padCaptions_padCaptions (c : List (Option String)) (n m : Nat) :
    padCaptions (padCaptions c n) m = padCaptions c (max n m) := by
  simp only [padCaptions, List.append_assoc, List.length_append,
    List.length_replicate]
  congr 1
  rw [← List.replicate_add]
  congr 1
  omega

/-- Padding never empties a non-empty captions list. -/
theorem lemma_padCaptions_ne_nil (c : List (Option String)) (n : Nat)
    (h : c ≠ []) : padCaptions c n ≠ [] := by
  simp [padCaptions, h]

/-- A fold of caption-preserving steps preserves the captions list. -/
theorem lemma_foldl_captions {α : Type} (f : SendState → α → SendState)
    (hf : ∀ s a, (f s a).captions = s.captions) :
    ∀ (l : List α) (st : SendState), (l.foldl f st).captions = st.captions := by
  intro l
  induction l with
  | nil => intro st; rfl
  | cons a l ih => intro st; rw [List.foldl_cons, ih, hf]

/-- The text block never touches the captions list. -/
theorem lemma_sendTexts_captions (bot : Nat → TgMessage)
    (messages : List (List Char)) (st : SendState) :
    (sendTexts bot messages st).captions = st.captions := by
  rw [sendTexts]
  split
  · rfl
  · apply lemma_foldl_captions
    intro s m
    dsimp only
    split
    · exact lemma_foldl_captions (fun s2 piece => pushText bot s2 piece)
        (fun s2 p => rfl) _ s
    · split
      · rfl
      · rfl

/-- The sticker block never touches the captions list. -/
theorem lemma_sendStickers_captions (bot : Nat → TgMessage)
    (items : List Nat) (st : SendState) :
    (sendStickers bot items st).captions = st.captions := by
  rw [sendStickers]
  split
  · rfl
  · exact lemma_foldl_captions (fun s f => pushMedia bot s (BotCall.sticker f))
      (fun s f => rfl) _ _

/-- The location block never touches the captions list. -/
theorem lemma_sendLocations_captions (bot : Nat → TgMessage)
    (locations : List (List Char)) (st st2 : SendState)
    (h : sendLocations bot locations st = some st2) :
    st2.captions = st.captions := by
  rw [sendLocations] at h
  split at h
  · cases h; rfl
  · rcases Option.map_eq_some'.mp h with ⟨ls, -, hfold⟩
    rw [← hfold]
    exact lemma_foldl_captions
      (fun (s : SendState) (p : List Char × List Char) =>
        pushMedia bot s (BotCall.location p.1 p.2)) (fun s p => rfl) _ _

/-- A captioned category block pads a non-empty captions list to the item
count (and leaves it alone when the category is empty). -/
theorem lemma_sendCaptioned_captions (bot : Nat → TgMessage)
    (mk : Nat → Option String → BotCall) (items : List Nat) (st : SendState)
    (h : st.captions ≠ []) :
    (sendCaptioned bot mk items st).captions =
      padCaptions st.captions items.length := by
  rw [sendCaptioned]
  split
  · next hi =>
    have : items = [] := by simpa [List.isEmpty_iff] using hi
    subst this
    simp [padCaptions]
  · rw [if_neg (by simpa [List.isEmpty_iff] using h)]
    dsimp only
    rw [lemma_foldl_captions
      (fun (s : SendState) (p : Nat × Option String) => pushMedia bot s (mk p.1 p.2))
      (fun s p => rfl)]
    rfl

/-- C10: `send` mutates the caller's captions list in place — each
captioned category with more items than the current captions list
extends it with `None` up to the item count, the mutation persists
across later categories, and the final list (the original right-padded
to the largest captioned category) is visible to the caller after `send`
returns.  The concrete conjunct shows a later, shorter category receiving
the list already padded by an earlier, longer one. -/
theorem C10_captions_mutated_in_place (bot : Nat → TgMessage)
    (inp : SendInput) (st2 : SendState) (hc : inp.captions ≠ [])
    (h : send bot inp = some st2) :
    st2.captions = inp.captions.map some ++ List.replicate
      ((inp.files.length ⊔ inp.images.length ⊔ inp.animations.length ⊔
        inp.videos.length ⊔ inp.audios.length) - inp.captions.length) none ∧
    (∀ bot' : Nat → TgMessage,
      (send bot' { emptyInput with
          files := [1, 2], captions := ["c"], images := [9] }).map
          (fun s => (s.calls, s.captions)) =
        some ([BotCall.document 1 (some "c"), BotCall.document 2 none,
               BotCall.photo 9 (some "c")], [some "c", none])) := by
  refine ⟨?_, fun bot' => rfl⟩
  have hc0 : inp.captions.map some ≠ [] := by
    simpa using hc
  rw [send] at h
  set s0 : SendState := ⟨[], [], inp.captions.map some⟩ with hs0
  have h0 : s0.captions = inp.captions.map some := rfl
  set s1 := sendTexts bot inp.messages s0 with hs1
  have h1 : s1.captions = inp.captions.map some := by
    rw [hs1, lemma_sendTexts_captions, h0]
  set s2 := sendCaptioned bot BotCall.document inp.files s1 with hs2
  have h2 : s2.captions = padCaptions (inp.captions.map some) inp.files.length := by
    rw [hs2, lemma_sendCaptioned_captions _ _ _ _ (by rw [h1]; exact hc0), h1]
  set s3 := sendCaptioned bot BotCall.photo inp.images s2 with hs3
  have h3 : s3.captions = padCaptions (inp.captions.map some)
      (inp.files.length ⊔ inp.images.length) := by
    rw [hs3, lemma_sendCaptioned_captions _ _ _ _
      (by rw [h2]; exact lemma_padCaptions_ne_nil _ _ hc0), h2,
      lemma_padCaptions_padCaptions]
  set s4 := sendStickers bot inp.stickers s3 with hs4
  have h4 : s4.captions = padCaptions (inp.captions.map some)
      (inp.files.length ⊔ inp.images.length) := by
    rw [hs4, lemma_sendStickers_captions, h3]
  set s5 := sendCaptioned bot BotCall.animation inp.animations s4 with hs5
  have h5 : s5.captions = padCaptions (inp.captions.map some)
      (inp.files.length ⊔ inp.images.length ⊔ inp.animations.length) := by
    rw [hs5, lemma_sendCaptioned_captions _ _ _ _
      (by rw [h4]; exact lemma_padCaptions_ne_nil _ _ hc0), h4,
      lemma_padCaptions_padCaptions]
  set s6 := sendCaptioned bot BotCall.video inp.videos s5 with hs6
  have h6 : s6.captions = padCaptions (inp.captions.map some)
      (inp.files.length ⊔ inp.images.length ⊔ inp.animations.length ⊔
        inp.videos.length) := by
    rw [hs6, lemma_sendCaptioned_captions _ _ _ _
      (by rw [h5]; exact lemma_padCaptions_ne_nil _ _ hc0), h5,
      lemma_padCaptions_padCaptions]
  set s7 := sendCaptioned bot BotCall.audio inp.audios s6 with hs7
  have h7 : s7.captions = padCaptions (inp.captions.map some)
      (inp.files.length ⊔ inp.images.length ⊔ inp.animations.length ⊔
        inp.videos.length ⊔ inp.audios.length) := by
    rw [hs7, lemma_sendCaptioned_captions _ _ _ _
      (by rw [h6]; exact lemma_padCaptions_ne_nil _ _ hc0), h6,
      lemma_padCaptions_padCaptions]
  rw [lemma_sendLocations_captions bot inp.locations s7 st2 h, h7]
  simp [padCaptions]

/-- C10 witness: 3 files and 1 caption — after `send` returns, the
caller's captions list has been extended to `["a", None, None]`. -/
theorem C10_witness :
    (({ emptyInput with files := [1, 2, 3], captions := ["a"] } : SendInput).captions ≠ [] ∧
     send (fun _ => TgMessage.mk 0)
        { emptyInput with files := [1, 2, 3], captions := ["a"] } =
       some ⟨[BotCall.document 1 (some "a"), BotCall.document 2 none,
              BotCall.document 3 none],
             [SentRef.obj (TgMessage.mk 0), SentRef.obj (TgMessage.mk 0),
              SentRef.obj (TgMessage.mk 0)],
             [some "a", none, none]⟩) ∧
    ([some "a", none, none] : List (Option String)) =
      ["a"].map some ++ List.replicate ((3 ⊔ 0 ⊔ 0 ⊔ 0 ⊔ 0) - 1) none :=
  ⟨⟨by decide, rfl⟩,
   (C10_captions_mutated_in_place (fun _ => TgMessage.mk 0)
      { emptyInput with files := [1, 2, 3], captions := ["a"] }
      ⟨[BotCall.document 1 (some "a"), BotCall.document 2 none,
        BotCall.document 3 none],
       [SentRef.obj (TgMessage.mk 0), SentRef.obj (TgMessage.mk 0),
        SentRef.obj (TgMessage.mk 0)],
       [some "a", none, none]⟩ (by decide) rfl).1⟩

/-- C5: each poll returns a batch; if some update in the batch has
message text equal to the password, pairing succeeds immediately with
that update (whose chat id and sender name are then used); otherwise the
cursor advances to one past the last update's id and polling repeats.
With an unrelated update in the first batch and the match in the second,
pairing fails after one poll, resolves after two, and yields the second
update's chat id and sender name. -/
theorem C5_pairing_poll :
    (∀ (pw : String) (batch : List TUpdate) (u : TUpdate),
      batch.find? (matchesPassword pw) = some u →
      get_user pw batch = (some u, none)) ∧
    (∀ (pw : String) (batch : List TUpdate) (last : TUpdate),
      batch.find? (matchesPassword pw) = none → batch.getLast? = some last →
      get_user pw batch = (none, some (last.update_id + 1))) ∧
    (∀ (server : Option Nat → List TUpdate) (pw : String) (fuel : Nat)
      (off : Option Nat),
      (server off).find? (matchesPassword pw) = none →
      configure_poll server pw (fuel + 1) off =
        configure_poll server pw fuel (get_user pw (server off)).2) ∧
    configure_poll demo_server "04821" 1 none = none ∧
    configure_poll demo_server "04821" 2 none = some demo_update2 ∧
    (configure_poll demo_server "04821" 2 none).bind pairing_chat_and_user =
      some (99, "alice") := by
  refine ⟨?_, ?_, ?_, by decide, by decide, by decide⟩
  · intro pw batch u h
    rw [get_user, h]
  · intro pw batch last h1 h2
    rw [get_user, h1, h2]
  · intro server pw fuel off h
    have hg : get_user pw (server off) = (none, (get_user pw (server off)).2) := by
      rw [get_user, h]
      cases (server off).getLast? <;> rfl
    conv_lhs => rw [configure_poll, hg]

/-- C5 witness: the three polling rules applied at the concrete two-poll
scenario. -/
theorem C5_witness :
    get_user "04821" [demo_update2] = (some demo_update2, none) ∧
    get_user "04821" [demo_update1] = (none, some 42) ∧
    configure_poll demo_server "04821" 1 none =
      configure_poll demo_server "04821" 0 (get_user "04821" (demo_server none)).2 :=
  ⟨C5_pairing_poll.1 "04821" [demo_update2] demo_update2 (by decide),
   C5_pairing_poll.2.1 "04821" [demo_update1] demo_update1 (by decide) (by decide),
   C5_pairing_poll.2.2.1 demo_server "04821" 0 none (by decide)⟩

/-- The fold of `delete` attempts every id in order and records one
warning per failing id, whatever trace it starts from. -/
theorem lemma_delete_fold (api : Nat → Except String Unit) :
    ∀ (ids : List Nat) (tr : DeleteTrace),
      ids.foldl (fun tr m =>
        match api m with
        | Except.ok _ => ⟨tr.attempted ++ [m], tr.warnings⟩
        | Except.error e =>
            ⟨tr.attempted ++ [m], tr.warnings ++ [delete_warning m e]⟩) tr =
      ⟨tr.attempted ++ ids, tr.warnings ++ ids.filterMap (fun m =>
        match api m with
        | Except.ok _ => none
        | Except.error e => some (delete_warning m e))⟩ := by
  intro ids
  induction ids with
  | nil => intro tr; simp
  | cons m ids ih =>
    intro tr
    rw [List.foldl_cons, ih]
    cases hm : api m <;>
      simp [hm, List.filterMap_cons, List.append_assoc]

/-- C9: a failure deleting any single id is caught and reported as a
warning, every id is still attempted in order, and the operation
completes without raising; with ids `[1, 2, 3]` and id 2 failing, ids 1
and 3 are still attempted and exactly one warning is recorded. -/
theorem C9_delete_continues (api : Nat → Except String Unit) (ids : List Nat) :
    (delete api ids).attempted = ids ∧
    (delete api ids).warnings = ids.filterMap (fun m =>
      match api m with
      | Except.ok _ => none
      | Except.error e => some (delete_warning m e)) ∧
    delete demo_delete_api [1, 2, 3] =
      ⟨[1, 2, 3], [delete_warning 2 "boom"]⟩ := by
  refine ⟨?_, ?_, by decide⟩ <;>
  · rw [delete]
    split
    · next hi =>
      have : ids = [] := by simpa [List.isEmpty_iff] using hi
      subst this
      rfl
    · rw [lemma_delete_fold]
      rfl

end TelegramSend
